import Mathlib

/-!
Shallow embedding of `src/main/main.py`, a stub script that wires two
callback functions into a linear directed graph via an external
agent-orchestration library.  The module is embedded as a list of
statements evaluated in order over a module state consisting of the bound
names, the graph builder, and the compiled graph, together with a trace of
external effects.  Name resolution is modelled faithfully: the callback
names `retrieve_node` and `generate_node` are never bound, so evaluation
stops with a name-resolution error at the first node registration.
-/

/-- A chat message, as carried by the `messages` field of `AgentState`. -/
structure BaseMessage where
  content : String
deriving DecidableEq, Repr

/-- Modelled from the spec: the reducer `add_messages`, imported from
`langgraph.graph.message`, is external to this repository; the spec
describes its merge policy as append/accumulate semantics, so the merged
value is the existing sequence with the new messages appended. -/
def add_messages (existing new : List BaseMessage) : List BaseMessage :=
  existing ++ new

/-- A declared field of a TypedDict state shape: its name, the text of its
type, and the reducer attached through Annotated, if any. -/
structure StateField where
  name : String
  typeText : String
  reducer : Option String
deriving DecidableEq, Repr

/-- The fields of the `AgentState` TypedDict (src/main/main.py, lines
10-11): a single field `messages`, a sequence of messages, annotated with
the reducer `add_messages`. -/
def agentStateFields : List StateField :=
  [⟨"messages", "Sequence of BaseMessage", some "add_messages"⟩]

/-- Modelled from the spec: the fixed start sentinel exported by the
external graph library, represented by its reserved name. -/
def START : String := "__start__"

/-- Modelled from the spec: the fixed end sentinel exported by the
external graph library, represented by its reserved name. -/
def END : String := "__end__"

/-- The mutable graph builder (`StateGraph`): the node names registered so
far and the directed edges registered so far, in registration order. -/
structure StateGraphBuilder where
  nodes : List String
  edges : List (String × String)
deriving DecidableEq, Repr

/-- A freshly created builder holds no nodes and no edges. -/
def StateGraphBuilder.empty : StateGraphBuilder := ⟨[], []⟩

/-- The statement forms of the embedded module language.  The first five
are the declarative statements the script uses; the last three are the
effectful statement forms Python offers (file input/output, network
requests), included so that the absence of external effects in this module
is a checkable property rather than a vacuity. -/
inductive Stmt where
  | defineAgentState
  | createGraph
  | addNode (nodeName fnName : String)
  | addEdge (src dst : String)
  | compileGraph
  | readFile (path : String)
  | writeFile (path : String) (data : String)
  | networkRequest (host : String)
deriving DecidableEq, Repr

/-- Externally visible effects a statement may perform. -/
inductive Effect where
  | fileRead (path : String)
  | fileWrite (path : String)
  | network (host : String)
deriving DecidableEq, Repr

/-- The syntactic effect footprint of a statement: the external effects it
performs when executed. -/
def stmtEffects : Stmt → List Effect
  | .readFile p => [.fileRead p]
  | .writeFile p _ => [.fileWrite p]
  | .networkRequest h => [.network h]
  | _ => []

/-- The state of the module while it evaluates: the module-level names
bound so far, the graph builder (bound to `workflow` once created), and
the compiled graph (bound to `graph` once compiled). -/
structure ModuleState where
  boundNames : List String
  builder : Option StateGraphBuilder
  graph : Option StateGraphBuilder
deriving DecidableEq, Repr

/-- The names bound by the import statements of src/main/main.py (lines
4-7).  The callback names `retrieve_node` and `generate_node` are not
among them, and no statement of the module binds them either. -/
def importedNames : List String :=
  ["Annotated", "Sequence", "TypedDict", "BaseMessage",
   "StateGraph", "START", "END", "add_messages"]

/-- The module state before the first statement runs: only the imported
names are bound, no builder exists, no graph exists. -/
def initialState : ModuleState := ⟨importedNames, none, none⟩

/-- The names a statement binds at module level when it succeeds. -/
def stmtBoundNames : Stmt → List String
  | .defineAgentState => ["AgentState"]
  | .createGraph => ["workflow"]
  | .compileGraph => ["graph"]
  | _ => []

/-- One step of module evaluation.  Arguments are resolved before a call
runs, as in Python: registering a node whose callback name is unbound
raises a name-resolution error before the builder is touched.  On success
the new module state and the effects performed are returned. -/
def evalStmt (s : ModuleState) : Stmt → Except String (ModuleState × List Effect)
  | .defineAgentState =>
      .ok ({ s with boundNames := s.boundNames ++ ["AgentState"] }, [])
  | .createGraph =>
      if "StateGraph" ∈ s.boundNames ∧ "AgentState" ∈ s.boundNames then
        .ok ({ boundNames := s.boundNames ++ ["workflow"]
               builder := some StateGraphBuilder.empty
               graph := s.graph }, [])
      else .error "NameError: name StateGraph is not defined"
  | .addNode nodeName fnName =>
      if fnName ∈ s.boundNames then
        match s.builder with
        | some b =>
            .ok ({ s with builder := some { b with nodes := b.nodes ++ [nodeName] } }, [])
        | none => .error "NameError: name workflow is not defined"
      else .error ("NameError: name " ++ fnName ++ " is not defined")
  | .addEdge a b =>
      match s.builder with
      | some bld =>
          .ok ({ s with builder := some { bld with edges := bld.edges ++ [(a, b)] } }, [])
      | none => .error "NameError: name workflow is not defined"
  | .compileGraph =>
      match s.builder with
      | some b =>
          .ok ({ boundNames := s.boundNames ++ ["graph"]
                 builder := s.builder
                 graph := some b }, [])
      | none => .error "NameError: name workflow is not defined"
  | .readFile p => .ok (s, stmtEffects (.readFile p))
  | .writeFile p d => .ok (s, stmtEffects (.writeFile p d))
  | .networkRequest h => .ok (s, stmtEffects (.networkRequest h))

/-- The outcome of running a statement list: the module state reached, the
unhandled error that stopped evaluation (if any), and the external effects
performed before stopping. -/
structure RunResult where
  state : ModuleState
  error : Option String
  effects : List Effect
deriving DecidableEq, Repr

/-- Run statements in order; the first error stops evaluation immediately
and is reported together with the state reached at that point.  There is
no statement form that catches an error, so every error propagates. -/
def runStmts : ModuleState → List Stmt → RunResult
  | s, [] => ⟨s, none, []⟩
  | s, st :: rest =>
    match evalStmt s st with
    | .error e => ⟨s, some e, []⟩
    | .ok (s2, effs) =>
      let r := runStmts s2 rest
      ⟨r.state, r.error, effs ++ r.effects⟩

/-- The statements of src/main/main.py (lines 10-26), in source order. -/
def mainModule : List Stmt :=
  [ .defineAgentState
  , .createGraph
  , .addNode "retrieve" "retrieve_node"
  , .addNode "generate" "generate_node"
  , .addEdge START "retrieve"
  , .addEdge "retrieve" "generate"
  , .addEdge "generate" END
  , .compileGraph ]

/-- The result of evaluating the module from the initial state. -/
def runModule : RunResult := runStmts initialState mainModule

/-- The node names a statement list declares, in declaration order. -/
def declaredNodes (stmts : List Stmt) : List String :=
  stmts.filterMap fun st =>
    match st with
    | .addNode n _ => some n
    | _ => none

/-- The directed edges a statement list declares, in declaration order. -/
def declaredEdges (stmts : List Stmt) : List (String × String) :=
  stmts.filterMap fun st =>
    match st with
    | .addEdge a b => some (a, b)
    | _ => none

/-- Every module-level name the source could bind: the imported names plus
the names bound by any statement of the module. -/
def moduleDefinedNames : List String :=
  importedNames ++ (mainModule.map stmtBoundNames).flatten

/-- The error evaluation stops with: the callback `retrieve_node` of the
first node registration is unbound. -/
def retrieveNameError : String := "NameError: name retrieve_node is not defined"

/-- The kind of a statement, numbered by the phase the spec assigns it:
state definition, builder creation, node registration, edge registration,
compilation; effectful statements fall outside every phase. -/
def stepKind : Stmt → Nat
  | .defineAgentState => 0
  | .createGraph => 1
  | .addNode _ _ => 2
  | .addEdge _ _ => 3
  | .compileGraph => 4
  | _ => 5

/-- An edge endpoint is valid when it is one of the two sentinels or a
node name already registered. -/
def endpointValid (nodes : List String) (e : String) : Bool :=
  e == START || e == END || nodes.contains e

/-- Walk the declared statements, tracking the node names registered so
far, and check that every declared edge has both endpoints valid at the
point it is declared. -/
def edgesWellFormed : List String → List Stmt → Bool
  | _, [] => true
  | nodes, .addNode n _ :: rest => edgesWellFormed (nodes ++ [n]) rest
  | nodes, .addEdge a b :: rest =>
      endpointValid nodes a && endpointValid nodes b && edgesWellFormed nodes rest
  | nodes, _ :: rest => edgesWellFormed nodes rest

/-- Modelled from the spec: one execution step of the compiled graph, in
which a node returns an update to `messages` and the external framework
merges it into the current state with the field reducer `add_messages`. -/
def stepMessages (current update : List BaseMessage) : List BaseMessage :=
  add_messages current update

/-- C1: the script declares exactly two named nodes, "retrieve" and
"generate", and exactly three directed edges — START to "retrieve",
"retrieve" to "generate", and "generate" to END — a single linear chain
from the start sentinel to the end sentinel with no other nodes or
edges. -/
theorem main_graph_two_nodes_three_edges :
    declaredNodes mainModule = ["retrieve", "generate"] ∧
    declaredEdges mainModule =
      [(START, "retrieve"), ("retrieve", "generate"), ("generate", END)] :=
  ⟨rfl, rfl⟩

/-- C2: the callbacks `retrieve_node` and `generate_node` are defined
nowhere in the source, so evaluating the module cannot produce a compiled
graph: the first reference to `retrieve_node` stops evaluation with a
name-resolution error. -/
theorem node_callbacks_undefined_eval_fails :
    "retrieve_node" ∉ moduleDefinedNames ∧
    "generate_node" ∉ moduleDefinedNames ∧
    runModule.error = some retrieveNameError := by
  refine ⟨?_, ?_, ?_⟩ <;> decide

/-- C3: the module performs its declarative steps in a fixed order — the
state shape is defined first, then the nodes are registered on the
builder, then the edges, and the compile step comes last — and no
statement falls outside these phases. -/
theorem module_declarative_steps_in_order :
    mainModule.map stepKind = [0, 1, 2, 2, 3, 3, 3, 4] ∧
    List.Sorted (· ≤ ·) (mainModule.map stepKind) := by
  refine ⟨rfl, ?_⟩
  decide

/-- C4: the `AgentState` record has exactly one field, `messages`, typed
as an ordered sequence of message objects; no other field is declared. -/
theorem agent_state_single_messages_field :
    agentStateFields.map StateField.name = ["messages"] ∧
    agentStateFields =
      [⟨"messages", "Sequence of BaseMessage", some "add_messages"⟩] :=
  ⟨rfl, rfl⟩

/-- C5: the reducer `add_messages` attached to the `messages` field has
append/accumulate semantics: the merged value is the existing sequence
with the new messages appended, and the existing messages keep their order
at the front of the result. -/
theorem add_messages_append_semantics (existing new : List BaseMessage) :
    add_messages existing new = existing ++ new ∧
    (add_messages existing new).take existing.length = existing := by
  refine ⟨rfl, ?_⟩
  simp [add_messages]

/-- C6: the module contains no error handling: whenever evaluating a
prefix of the statements stops with an error, evaluating the whole list
stops with that same error — nothing catches it, so it propagates
unhandled out of the module. -/
theorem errors_propagate_unhandled (s : ModuleState) (stmts more : List Stmt)
    (e : String) (h : (runStmts s stmts).error = some e) :
    (runStmts s (stmts ++ more)).error = some e := by
  induction stmts generalizing s with
  | nil => simp [runStmts] at h
  | cons st rest ih =>
    rw [List.cons_append]
    cases hev : evalStmt s st with
    | error err =>
      simp only [runStmts, hev] at h ⊢
      exact h
    | ok p =>
      obtain ⟨s2, effs⟩ := p
      simp only [runStmts, hev] at h ⊢
      exact ih s2 h

/-- Witness for C6: the module itself errors after its first three
statements with the name-resolution error, and appending the remaining
statements leaves that error unhandled. -/
theorem errors_propagate_unhandled_witness :
    (runStmts initialState (mainModule.take 3)).error = some retrieveNameError ∧
    (runStmts initialState (mainModule.take 3 ++ mainModule.drop 3)).error =
      some retrieveNameError :=
  ⟨by decide, errors_propagate_unhandled initialState (mainModule.take 3)
    (mainModule.drop 3) retrieveNameError (by decide)⟩

/-- C7: no statement of the module has an external effect footprint, and
evaluating the module performs no externally visible effect — no file
access, no network, no persistence; only module-level bindings, the
builder and the compiled result are constructed. -/
theorem module_eval_no_external_effects :
    (mainModule.map stmtEffects).flatten = [] ∧ runModule.effects = [] :=
  ⟨rfl, rfl⟩

/-- C8: the failure at the first node registration is atomic with respect
to the declared graph: evaluation stops with the name-resolution error
while the builder still holds zero nodes and zero edges, and the name
`graph` is never bound. -/
theorem failure_atomic_graph_unbound :
    runModule.error = some retrieveNameError ∧
    runModule.state.builder = some StateGraphBuilder.empty ∧
    "graph" ∉ runModule.state.boundNames ∧
    runModule.state.graph = none := by
  refine ⟨?_, ?_, ?_, ?_⟩ <;> decide

/-- C9: every declared edge has both endpoints equal to a sentinel or to a
previously registered node name, the two registered names are distinct,
and neither coincides with a sentinel — the declared graph has no dangling
edge endpoints. -/
theorem declared_graph_well_formed :
    edgesWellFormed [] mainModule = true ∧
    (declaredNodes mainModule).Nodup ∧
    (declaredNodes mainModule).all (fun n => !(n == START) && !(n == END)) = true := by
  refine ⟨?_, ?_, ?_⟩ <;> decide

/-- C10: because the `messages` field carries an accumulating reducer, a
graph execution step never shrinks the message sequence: its length never
decreases and the messages already present survive the step, in order, as
a prefix of the new sequence. -/
theorem step_preserves_existing_messages (current update : List BaseMessage) :
    current.length ≤ (stepMessages current update).length ∧
    current <+: stepMessages current update := by
  refine ⟨?_, List.prefix_append current update⟩
  simp [stepMessages, add_messages]
